import Mathlib

/-!
Verification of the WebSocket↔TCP MQTT proxy core (`app/broker_app.py`).

The embedding models:
* the WS→TCP relay loop `ws_to_tcp` (chunked writes, adaptive flush policy,
  final drain, exception handling),
* the TCP→WS relay loop `tcp_to_ws` (read until EOF, send every chunk,
  exception handling),
* the two session-coordinator handlers `mqtt_websocket_proxy` (`/mqtt`) and
  `mqtt_websocket_proxy_opt` (`/mqtt_opt`) as event traces parameterised by
  the outcome of the connect attempt and of the FIRST_COMPLETED race,
* an abstract stream-writer state giving semantics to write/drain effects.

Bytes are natural numbers; a chunk is a list of bytes.  Python's
`if data:` on a `bytes` value is truth-testing for nonemptiness, which the
embedding renders as `data = []` tests.
-/

/-- A chunk: an opaque byte sequence read in one I/O operation. -/
abbrev Chunk := List Nat

/-- `FLUSH_THRESHOLD = 131072` from `ws_to_tcp` (broker_app.py line 94). -/
def FLUSH_THRESHOLD : Nat := 131072

/-- `BUFFER_SIZE = 65536`, the TCP read buffer size (broker_app.py line 50). -/
def BUFFER_SIZE : Nat := 65536

/-- Effects the WS→TCP loop can perform on the TCP `StreamWriter`.
`closeWriter` is in the alphabet so we can state that the relay loop never
closes the writer (only the session coordinator does). -/
inductive WEffect
  | write (c : Chunk)
  | drain
  | closeWriter
deriving DecidableEq, Repr

/-- One iteration of the `async for data in ws.iter_bytes()` body in
`ws_to_tcp` (broker_app.py lines 97-109): skip empty chunks (`if data:`),
otherwise write the chunk, add its length to `pending_bytes`, and drain
(resetting `pending_bytes` to 0) when the chunk is small (`n < 100`) or the
accumulated count exceeds `FLUSH_THRESHOLD`.  Returns the new
`pending_bytes` and the writer effects of this iteration. -/
def wsToTcpStep (pending_bytes : Nat) (data : Chunk) : Nat × List WEffect :=
  if data = [] then (pending_bytes, [])
  else
    let n := data.length
    let pending2 := pending_bytes + n
    if n < 100 ∨ pending2 > FLUSH_THRESHOLD then
      (0, [WEffect.write data, WEffect.drain])
    else
      (pending2, [WEffect.write data])

/-- The `async for` loop of `ws_to_tcp` over a finite stream of delivered
chunks, threading `pending_bytes` and accumulating writer effects. -/
def wsToTcpLoop : Nat → List Chunk → Nat × List WEffect
  | pending, [] => (pending, [])
  | pending, c :: rest =>
    let st := wsToTcpStep pending c
    let ls := wsToTcpLoop st.1 rest
    (ls.1, st.2 ++ ls.2)

/-- Exception classes that can surface inside a relay loop.  `cancelled`
stands for `asyncio.CancelledError`, which since Python 3.8 derives from
`BaseException`, not `Exception`. -/
inductive PyExc
  | wsDisconnect
  | connReset
  | runtimeError
  | cancelled
  | otherExc
deriving DecidableEq, Repr

/-- Whether the exception class is a subclass of Python's `Exception`
(and hence caught by a bare `except Exception`). -/
def isExceptionSubclass : PyExc → Bool
  | PyExc.cancelled => false
  | _ => true

/-- How a relay loop function finishes. -/
inductive LoopExit
  | closedClean
  | closedError (reported : Bool)
  | propagated (e : PyExc)
deriving DecidableEq, Repr

/-- `true` exactly on `LoopExit.propagated`. -/
def isPropagated : LoopExit → Bool
  | LoopExit.propagated _ => true
  | _ => false

/-- The `except` clauses of `ws_to_tcp` (broker_app.py lines 114-117):
`(WebSocketDisconnect, ConnectionResetError)` are passed silently, any other
`Exception` is printed; `CancelledError` is not an `Exception` and
propagates. -/
def handleExcWsToTcp (e : PyExc) : LoopExit :=
  match e with
  | PyExc.wsDisconnect => LoopExit.closedError false
  | PyExc.connReset => LoopExit.closedError false
  | _ =>
    if isExceptionSubclass e then LoopExit.closedError true
    else LoopExit.propagated e

/-- The `except` clauses of `tcp_to_ws` (broker_app.py lines 129-132):
`(RuntimeError, ConnectionResetError)` are passed silently, any other
`Exception` is printed; `CancelledError` propagates. -/
def handleExcTcpToWs (e : PyExc) : LoopExit :=
  match e with
  | PyExc.runtimeError => LoopExit.closedError false
  | PyExc.connReset => LoopExit.closedError false
  | _ =>
    if isExceptionSubclass e then LoopExit.closedError true
    else LoopExit.propagated e

/-- How the WS source stream ends: the `iter_bytes` iterator is exhausted
(end of stream), or an exception is raised at a read/write point after the
listed chunks were processed. -/
inductive WsEnd
  | eos
  | raises (e : PyExc)
deriving DecidableEq, Repr

/-- `ws_to_tcp` (broker_app.py lines 91-117) over a finite stream: run the
loop on the delivered chunks; on end of stream do the trailing
`if pending_bytes > 0: await writer.drain()` and return normally; on an
exception skip the trailing drain and run the `except` clauses. -/
def ws_to_tcp_run (chunks : List Chunk) (ending : WsEnd) : List WEffect × LoopExit :=
  let L := wsToTcpLoop 0 chunks
  match ending with
  | WsEnd.eos =>
    (if L.1 > 0 then L.2 ++ [WEffect.drain] else L.2, LoopExit.closedClean)
  | WsEnd.raises e => (L.2, handleExcWsToTcp e)

/-- How the TCP source ends when the loop exhausts the listed reads:
`reader.read` returns an empty chunk (EOF), or raises. -/
inductive TcpEnd
  | eof
  | raises (e : PyExc)
deriving DecidableEq, Repr

/-- The `while True` loop of `tcp_to_ws` (broker_app.py lines 124-128):
send each read chunk to the WebSocket, breaking at the first empty read
(EOF).  Returns the sent chunks and whether the break was taken. -/
def tcpLoop : List Chunk → List Chunk × Bool
  | [] => ([], false)
  | c :: rest =>
    if c = [] then ([], true)
    else
      let t := tcpLoop rest
      (c :: t.1, t.2)

/-- `tcp_to_ws` (broker_app.py lines 119-132) over a finite stream of reads:
run the loop; if it did not break on an in-stream EOF, the stream's ending
decides the outcome (a final empty read, or an exception handled by the
`except` clauses). -/
def tcp_to_ws_run (reads : List Chunk) (ending : TcpEnd) : List Chunk × LoopExit :=
  let t := tcpLoop reads
  if t.2 then (t.1, LoopExit.closedClean)
  else
    match ending with
    | TcpEnd.eof => (t.1, LoopExit.closedClean)
    | TcpEnd.raises e => (t.1, handleExcTcpToWs e)

/-- Abstract state of the TCP `StreamWriter`: `buffered` holds bytes written
since the last drain, `sent` the bytes already transmitted to the peer. -/
structure WriterState where
  buffered : List Nat
  sent : List Nat
deriving DecidableEq, Repr

/-- Semantics of one writer effect: `write` appends to the transport buffer,
`drain` transmits the buffer; `closeWriter` leaves the byte state unchanged
here (closing is observed in the session traces). -/
def applyWEffect (s : WriterState) : WEffect → WriterState
  | WEffect.write c => { s with buffered := s.buffered ++ c }
  | WEffect.drain => { buffered := [], sent := s.sent ++ s.buffered }
  | WEffect.closeWriter => s

/-- Run a list of writer effects from a state. -/
def runWriter (s : WriterState) : List WEffect → WriterState
  | [] => s
  | e :: rest => runWriter (applyWEffect s e) rest

/-- Direction of a relay loop task. -/
inductive Dir
  | wsToTcp
  | tcpToWs
deriving DecidableEq, Repr

/-- Mode passed to `asyncio.wait` via `return_when`. -/
inductive WaitMode
  | firstCompleted
  | allCompleted
deriving DecidableEq, Repr

/-- Which tasks are already done when the FIRST_COMPLETED wait returns:
one of the two, or both (they may finish simultaneously). -/
inductive RaceResult
  | wsFirst
  | tcpFirst
  | bothDone
deriving DecidableEq, Repr

/-- Whether direction `d`'s task is in the `done` set of the race. -/
def isDone : RaceResult → Dir → Bool
  | RaceResult.wsFirst, Dir.wsToTcp => true
  | RaceResult.wsFirst, Dir.tcpToWs => false
  | RaceResult.tcpFirst, Dir.wsToTcp => false
  | RaceResult.tcpFirst, Dir.tcpToWs => true
  | RaceResult.bothDone, _ => true

/-- The tasks in the `pending` set returned by `asyncio.wait`. -/
def pendingTasks (r : RaceResult) : List Dir :=
  [Dir.wsToTcp, Dir.tcpToWs].filter (fun d => !(isDone r d))

/-- Observable actions of a session-coordinator handler. -/
inductive SEvent
  | tcpConnect (ok : Bool)
  | wsClose (code : Nat)
  | wsAccept (subprotocol : String)
  | createTask (d : Dir)
  | waitTasks (mode : WaitMode)
  | cancelTask (d : Dir)
  | writerClose
  | writerWaitClosed
deriving DecidableEq, Repr

/-- Event trace of the `/mqtt` handler `mqtt_websocket_proxy`
(broker_app.py lines 160-193), parameterised by whether
`asyncio.open_connection` succeeds and by the race outcome: on connect
failure close the WebSocket with code 1011 and return; otherwise accept with
subprotocol `mqtt`, create the two relay tasks, wait FIRST_COMPLETED, cancel
each task in the `pending` set, close the writer and await `wait_closed`. -/
def mqtt_websocket_proxy (connectOk : Bool) (race : RaceResult) : List SEvent :=
  if !connectOk then
    [SEvent.tcpConnect false, SEvent.wsClose 1011]
  else
    [SEvent.tcpConnect true, SEvent.wsAccept "mqtt",
     SEvent.createTask Dir.wsToTcp, SEvent.createTask Dir.tcpToWs,
     SEvent.waitTasks WaitMode.firstCompleted]
    ++ (pendingTasks race).map SEvent.cancelTask
    ++ [SEvent.writerClose, SEvent.writerWaitClosed]

/-- Event trace of the `/mqtt_opt` handler `mqtt_websocket_proxy_opt`
(broker_app.py lines 135-158): identical, except `task.cancel()` is called
on both tasks (`for task in [task_ws, task_tcp]`) rather than on the
`pending` set only. -/
def mqtt_websocket_proxy_opt (connectOk : Bool) (_race : RaceResult) : List SEvent :=
  if !connectOk then
    [SEvent.tcpConnect false, SEvent.wsClose 1011]
  else
    [SEvent.tcpConnect true, SEvent.wsAccept "mqtt",
     SEvent.createTask Dir.wsToTcp, SEvent.createTask Dir.tcpToWs,
     SEvent.waitTasks WaitMode.firstCompleted,
     SEvent.cancelTask Dir.wsToTcp, SEvent.cancelTask Dir.tcpToWs,
     SEvent.writerClose, SEvent.writerWaitClosed]

/-- The behaviorally effective part of a trace: `Task.cancel()` on a task
that has already completed returns `False` and has no effect in asyncio, so
such cancel events are dropped; everything else is kept. -/
def effectiveTrace (race : RaceResult) (t : List SEvent) : List SEvent :=
  t.filter (fun e =>
    match e with
    | SEvent.cancelTask d => !(isDone race d)
    | _ => true)

/-- Modelled from the spec: `proxy_core.optimized_ws_to_tcp`.  The Cython
source `app/pyx/proxy_core.pyx` is not in the repository snapshot (only
`setup.py`, which compiles it, is); the spec states the optimized relay
loops "must be behaviorally identical — same buffering policy, same teardown
contract — differing only in execution efficiency", so the model is the
reference WS→TCP relay. -/
def optimized_ws_to_tcp_run (chunks : List Chunk) (ending : WsEnd) :
    List WEffect × LoopExit :=
  ws_to_tcp_run chunks ending

/-- Modelled from the spec: `proxy_core.optimized_tcp_to_ws`, behaviorally
identical to the reference TCP→WS relay (see `optimized_ws_to_tcp_run`). -/
def optimized_tcp_to_ws_run (reads : List Chunk) (ending : TcpEnd) :
    List Chunk × LoopExit :=
  tcp_to_ws_run reads ending

/-- The fallback stub installed when importing `proxy_core` fails
(broker_app.py lines 11-12): `async def optimized_ws_to_tcp(ws, writer):
pass` — it reads nothing, writes nothing, and returns immediately. -/
def fallback_optimized_ws_to_tcp_run (_chunks : List Chunk) (_ending : WsEnd) :
    List WEffect × LoopExit :=
  ([], LoopExit.closedClean)

/-- The fallback stub for `optimized_tcp_to_ws` (broker_app.py line 12). -/
def fallback_optimized_tcp_to_ws_run (_reads : List Chunk) (_ending : TcpEnd) :
    List Chunk × LoopExit :=
  ([], LoopExit.closedClean)

/-! ## Helper lemmas about the writer semantics and the WS→TCP loop -/

theorem runWriter_append (s : WriterState) (l1 l2 : List WEffect) :
    runWriter s (l1 ++ l2) = runWriter (runWriter s l1) l2 := by
  induction l1 generalizing s with
  | nil => rfl
  | cons e rest ih => exact ih (applyWEffect s e)

theorem step_sent_buffered (pending : Nat) (c : Chunk) (s : WriterState) :
    (runWriter s (wsToTcpStep pending c).2).sent
      ++ (runWriter s (wsToTcpStep pending c).2).buffered
      = s.sent ++ s.buffered ++ c := by
  by_cases hc : c = []
  · subst hc; simp [wsToTcpStep, runWriter]
  · by_cases hf : c.length < 100 ∨ pending + c.length > FLUSH_THRESHOLD
    · simp [wsToTcpStep, hc, hf, runWriter, applyWEffect, List.append_assoc]
    · simp [wsToTcpStep, hc, hf, runWriter, applyWEffect, List.append_assoc]

theorem step_pending (pending : Nat) (c : Chunk) (s : WriterState)
    (h : pending = s.buffered.length) :
    (wsToTcpStep pending c).1
      = (runWriter s (wsToTcpStep pending c).2).buffered.length := by
  subst h
  by_cases hc : c = []
  · subst hc; simp [wsToTcpStep, runWriter]
  · by_cases hf : c.length < 100 ∨ s.buffered.length + c.length > FLUSH_THRESHOLD
    · simp [wsToTcpStep, hc, hf, runWriter, applyWEffect]
    · simp [wsToTcpStep, hc, hf, runWriter, applyWEffect]

theorem loop_invariant : ∀ (chunks : List Chunk) (pending : Nat) (s : WriterState),
    pending = s.buffered.length →
    ((runWriter s (wsToTcpLoop pending chunks).2).sent
        ++ (runWriter s (wsToTcpLoop pending chunks).2).buffered
      = s.sent ++ s.buffered ++ chunks.flatten)
    ∧ (wsToTcpLoop pending chunks).1
        = (runWriter s (wsToTcpLoop pending chunks).2).buffered.length := by
  intro chunks
  induction chunks with
  | nil =>
    intro pending s h
    constructor
    · simp [wsToTcpLoop, runWriter]
    · simpa [wsToTcpLoop, runWriter] using h
  | cons c rest ih =>
    intro pending s h
    have hstep := step_pending pending c s h
    have hrec := ih (wsToTcpStep pending c).1 (runWriter s (wsToTcpStep pending c).2) hstep
    constructor
    · show (runWriter s ((wsToTcpStep pending c).2
            ++ (wsToTcpLoop (wsToTcpStep pending c).1 rest).2)).sent
          ++ (runWriter s ((wsToTcpStep pending c).2
            ++ (wsToTcpLoop (wsToTcpStep pending c).1 rest).2)).buffered
          = s.sent ++ s.buffered ++ (c :: rest).flatten
      rw [runWriter_append]
      calc (runWriter (runWriter s (wsToTcpStep pending c).2)
              (wsToTcpLoop (wsToTcpStep pending c).1 rest).2).sent
            ++ (runWriter (runWriter s (wsToTcpStep pending c).2)
              (wsToTcpLoop (wsToTcpStep pending c).1 rest).2).buffered
          = (runWriter s (wsToTcpStep pending c).2).sent
              ++ (runWriter s (wsToTcpStep pending c).2).buffered ++ rest.flatten := hrec.1
        _ = (s.sent ++ s.buffered ++ c) ++ rest.flatten := by rw [step_sent_buffered]
        _ = s.sent ++ s.buffered ++ (c :: rest).flatten := by
              simp [List.append_assoc]
    · show (wsToTcpLoop (wsToTcpStep pending c).1 rest).1
          = (runWriter s ((wsToTcpStep pending c).2
              ++ (wsToTcpLoop (wsToTcpStep pending c).1 rest).2)).buffered.length
      rw [runWriter_append]
      exact hrec.2

theorem run_eos_state (chunks : List Chunk) :
    runWriter ⟨[], []⟩ (ws_to_tcp_run chunks WsEnd.eos).1 = ⟨[], chunks.flatten⟩ := by
  obtain ⟨hA, hB⟩ := loop_invariant chunks 0 ⟨[], []⟩ rfl
  have hA2 : (runWriter ⟨[], []⟩ (wsToTcpLoop 0 chunks).2).sent
      ++ (runWriter ⟨[], []⟩ (wsToTcpLoop 0 chunks).2).buffered = chunks.flatten := by
    simpa using hA
  by_cases hp : (wsToTcpLoop 0 chunks).1 > 0
  · have heff : (ws_to_tcp_run chunks WsEnd.eos).1
        = (wsToTcpLoop 0 chunks).2 ++ [WEffect.drain] := by
      show (if (wsToTcpLoop 0 chunks).1 > 0
          then (wsToTcpLoop 0 chunks).2 ++ [WEffect.drain]
          else (wsToTcpLoop 0 chunks).2) = _
      rw [if_pos hp]
    rw [heff, runWriter_append]
    simp [runWriter, applyWEffect, hA2]
  · have h0 : (wsToTcpLoop 0 chunks).1 = 0 := by omega
    have heff : (ws_to_tcp_run chunks WsEnd.eos).1 = (wsToTcpLoop 0 chunks).2 := by
      show (if (wsToTcpLoop 0 chunks).1 > 0
          then (wsToTcpLoop 0 chunks).2 ++ [WEffect.drain]
          else (wsToTcpLoop 0 chunks).2) = _
      rw [if_neg hp]
    rw [heff]
    have hlen : (runWriter ⟨[], []⟩ (wsToTcpLoop 0 chunks).2).buffered.length = 0 := by
      omega
    have hbuf : (runWriter ⟨[], []⟩ (wsToTcpLoop 0 chunks).2).buffered = [] :=
      List.length_eq_zero.mp hlen
    have hsent : (runWriter ⟨[], []⟩ (wsToTcpLoop 0 chunks).2).sent = chunks.flatten := by
      rw [hbuf] at hA2; simpa using hA2
    calc runWriter ⟨[], []⟩ (wsToTcpLoop 0 chunks).2
        = ⟨(runWriter ⟨[], []⟩ (wsToTcpLoop 0 chunks).2).buffered,
           (runWriter ⟨[], []⟩ (wsToTcpLoop 0 chunks).2).sent⟩ := rfl
      _ = ⟨[], chunks.flatten⟩ := by rw [hbuf, hsent]

theorem step_no_close (pending : Nat) (c : Chunk) :
    WEffect.closeWriter ∉ (wsToTcpStep pending c).2 := by
  by_cases hc : c = []
  · simp [wsToTcpStep, hc]
  · by_cases hf : c.length < 100 ∨ pending + c.length > FLUSH_THRESHOLD
    · simp [wsToTcpStep, hc, hf]
    · simp [wsToTcpStep, hc, hf]

theorem loop_no_close (chunks : List Chunk) : ∀ pending : Nat,
    WEffect.closeWriter ∉ (wsToTcpLoop pending chunks).2 := by
  induction chunks with
  | nil => intro pending; simp [wsToTcpLoop]
  | cons c rest ih =>
    intro pending
    show WEffect.closeWriter ∉
      (wsToTcpStep pending c).2 ++ (wsToTcpLoop (wsToTcpStep pending c).1 rest).2
    intro hmem
    rcases List.mem_append.mp hmem with h | h
    · exact step_no_close pending c h
    · exact ih (wsToTcpStep pending c).1 h

theorem ws_run_no_close (chunks : List Chunk) (ending : WsEnd) :
    WEffect.closeWriter ∉ (ws_to_tcp_run chunks ending).1 := by
  cases ending with
  | eos =>
    show WEffect.closeWriter ∉
      (if (wsToTcpLoop 0 chunks).1 > 0
        then (wsToTcpLoop 0 chunks).2 ++ [WEffect.drain]
        else (wsToTcpLoop 0 chunks).2)
    by_cases hp : (wsToTcpLoop 0 chunks).1 > 0
    · rw [if_pos hp]
      intro hmem
      rcases List.mem_append.mp hmem with h | h
      · exact loop_no_close chunks 0 h
      · simp at h
    · rw [if_neg hp]
      exact loop_no_close chunks 0
  | raises e => exact loop_no_close chunks 0

theorem tcpLoop_clean_prefix (pre rest : List Chunk) (h : ∀ c ∈ pre, c ≠ []) :
    tcpLoop (pre ++ [] :: rest) = (pre, true) := by
  induction pre with
  | nil => simp [tcpLoop]
  | cons c p ih =>
    have hc : c ≠ [] := h c (List.mem_cons_self c p)
    have hp : ∀ x ∈ p, x ≠ [] := fun x hx => h x (List.mem_cons_of_mem c hx)
    simp [tcpLoop, hc, ih hp]

/-! ## Claim theorems -/

/-- C1: after the `/mqtt` session coordinator creates the two relay loop
tasks, it waits with first-completed semantics (never all-completed), then
cancels each task still pending, and only after that closes the outbound TCP
write side; teardown begins without waiting for both tasks to finish
naturally. -/
theorem coordinator_first_completed_then_cancel_then_close (race : RaceResult) :
    SEvent.waitTasks WaitMode.firstCompleted ∈ mqtt_websocket_proxy true race
    ∧ SEvent.waitTasks WaitMode.allCompleted ∉ mqtt_websocket_proxy true race
    ∧ (mqtt_websocket_proxy true race).indexOf (SEvent.createTask Dir.wsToTcp)
        < (mqtt_websocket_proxy true race).indexOf (SEvent.waitTasks WaitMode.firstCompleted)
    ∧ (mqtt_websocket_proxy true race).indexOf (SEvent.createTask Dir.tcpToWs)
        < (mqtt_websocket_proxy true race).indexOf (SEvent.waitTasks WaitMode.firstCompleted)
    ∧ (∀ d ∈ pendingTasks race,
        SEvent.cancelTask d ∈ mqtt_websocket_proxy true race
        ∧ (mqtt_websocket_proxy true race).indexOf (SEvent.waitTasks WaitMode.firstCompleted)
            < (mqtt_websocket_proxy true race).indexOf (SEvent.cancelTask d)
        ∧ (mqtt_websocket_proxy true race).indexOf (SEvent.cancelTask d)
            < (mqtt_websocket_proxy true race).indexOf SEvent.writerClose)
    ∧ (mqtt_websocket_proxy true race).indexOf (SEvent.waitTasks WaitMode.firstCompleted)
        < (mqtt_websocket_proxy true race).indexOf SEvent.writerClose := by
  cases race <;> decide

/-- C2: per session the outbound writer is closed exactly once, by the
coordinator after the race has returned and after every still-pending task
has had cancellation requested; the WS→TCP relay loop itself never emits a
writer close, whatever its input stream or ending. -/
theorem writer_closed_once_by_coordinator (race : RaceResult)
    (chunks : List Chunk) (ending : WsEnd) :
    (mqtt_websocket_proxy true race).count SEvent.writerClose = 1
    ∧ (mqtt_websocket_proxy true race).indexOf (SEvent.waitTasks WaitMode.firstCompleted)
        < (mqtt_websocket_proxy true race).indexOf SEvent.writerClose
    ∧ (∀ d ∈ pendingTasks race,
        (mqtt_websocket_proxy true race).indexOf (SEvent.cancelTask d)
          < (mqtt_websocket_proxy true race).indexOf SEvent.writerClose)
    ∧ WEffect.closeWriter ∉ (ws_to_tcp_run chunks ending).1 := by
  refine ⟨?_, ?_, ?_, ws_run_no_close chunks ending⟩
  · cases race <;> decide
  · cases race <;> decide
  · cases race <;> decide

/-- C3: for a chunk of size `n ≥ 100`, the WS→TCP step drains iff
`pending_before + n > 131072`; the pending counter becomes 0 after a drain
and `pending_before + n` otherwise. -/
theorem flush_batching_large_chunks (pending : Nat) (c : Chunk)
    (h : 100 ≤ c.length) :
    (WEffect.drain ∈ (wsToTcpStep pending c).2 ↔ pending + c.length > FLUSH_THRESHOLD)
    ∧ (wsToTcpStep pending c).1
        = (if pending + c.length > FLUSH_THRESHOLD then 0 else pending + c.length) := by
  have hc : c ≠ [] := by
    intro h0
    rw [h0] at h
    simp at h
  by_cases hf : pending + c.length > FLUSH_THRESHOLD
  · have hcond : c.length < 100 ∨ pending + c.length > FLUSH_THRESHOLD := Or.inr hf
    simp [wsToTcpStep, hc, hcond, hf]
  · have hn : ¬(c.length < 100) := by omega
    simp [wsToTcpStep, hc, hn, hf]

/-- Witness for `flush_batching_large_chunks` at a concrete 150-byte chunk. -/
theorem flush_batching_large_chunks_witness :
    (WEffect.drain ∈ (wsToTcpStep 0 (List.replicate 150 7)).2
      ↔ 0 + (List.replicate 150 7).length > FLUSH_THRESHOLD)
    ∧ (wsToTcpStep 0 (List.replicate 150 7)).1
        = (if 0 + (List.replicate 150 7).length > FLUSH_THRESHOLD then 0
           else 0 + (List.replicate 150 7).length) :=
  flush_batching_large_chunks 0 (List.replicate 150 7) (by simp)

/-- C4 counterexample: a zero-length chunk has size `< 100` and is processed
by the WS→TCP relay, yet no drain (and no write) is performed for it — the
`if data:` guard skips it, so the claim "every chunk of size n < 100 is
flushed immediately" fails at `n = 0`. -/
theorem small_chunk_flush_fails_on_empty_chunk :
    ([] : Chunk).length < 100
    ∧ WEffect.drain ∉ (wsToTcpStep 50 ([] : Chunk)).2
    ∧ WEffect.write ([] : Chunk) ∉ (wsToTcpStep 50 ([] : Chunk)).2
    ∧ (wsToTcpStep 50 ([] : Chunk)).1 = 50 := by decide

/-- C4 amended: every nonempty chunk of size `1 ≤ n < 100` is written and
immediately drained, regardless of the pending count, which then resets to
0; zero-length chunks are skipped entirely. -/
theorem small_nonempty_chunk_flushes_immediately (pending : Nat) (c : Chunk)
    (hne : c ≠ []) (hsmall : c.length < 100) :
    wsToTcpStep pending c = (0, [WEffect.write c, WEffect.drain]) := by
  simp [wsToTcpStep, hne, hsmall]

/-- Witness for `small_nonempty_chunk_flushes_immediately` at a 3-byte chunk
with a large pending count. -/
theorem small_nonempty_chunk_flushes_immediately_witness :
    wsToTcpStep 500 [1, 2, 3] = (0, [WEffect.write [1, 2, 3], WEffect.drain]) :=
  small_nonempty_chunk_flushes_immediately 500 [1, 2, 3] (by decide) (by decide)

/-- C5: a WS→TCP relay run that terminates cleanly transmits to the sink
exactly the concatenation of all chunks in source order, leaves nothing
buffered, and, when the loop exits with nonzero pending, its effect list is
the loop's effects followed by one final drain. -/
theorem relay_no_byte_loss (chunks : List Chunk) :
    (ws_to_tcp_run chunks WsEnd.eos).2 = LoopExit.closedClean
    ∧ (runWriter ⟨[], []⟩ (ws_to_tcp_run chunks WsEnd.eos).1).sent = chunks.flatten
    ∧ (runWriter ⟨[], []⟩ (ws_to_tcp_run chunks WsEnd.eos).1).buffered = []
    ∧ ((wsToTcpLoop 0 chunks).1 > 0 →
        (ws_to_tcp_run chunks WsEnd.eos).1
          = (wsToTcpLoop 0 chunks).2 ++ [WEffect.drain]) := by
  refine ⟨rfl, ?_, ?_, ?_⟩
  · rw [run_eos_state]
  · rw [run_eos_state]
  · intro hp
    show (if (wsToTcpLoop 0 chunks).1 > 0
        then (wsToTcpLoop 0 chunks).2 ++ [WEffect.drain]
        else (wsToTcpLoop 0 chunks).2) = _
    rw [if_pos hp]

/-- Witness for `relay_no_byte_loss` at a concrete two-chunk stream. -/
theorem relay_no_byte_loss_witness :
    (runWriter ⟨[], []⟩ (ws_to_tcp_run [[1, 2], [3]] WsEnd.eos).1).sent
      = ([[1, 2], [3]] : List Chunk).flatten :=
  (relay_no_byte_loss [[1, 2], [3]]).2.1

/-- C6 counterexample: under the ImportError fallback (broker_app.py lines
8-12) the `/mqtt_opt` relay loop is a stub that relays nothing, so on the
one-chunk stream `[[0]]` its behavior differs from the `/mqtt` relay loop,
refuting behavioral identity of the two handlers as stated. -/
theorem opt_fallback_not_equivalent :
    fallback_optimized_ws_to_tcp_run [[0]] WsEnd.eos ≠ ws_to_tcp_run [[0]] WsEnd.eos := by
  decide

/-- C6 amended: the `/mqtt_opt` handler is behaviorally identical to the
`/mqtt` handler provided the compiled `proxy_core` module loads: the
teardown traces agree up to no-op cancels of already-completed tasks, and
the loaded optimized relay loops (spec-modelled, their Cython source being
absent from the snapshot) equal the reference ones; under the ImportError
fallback the relay loops are no-op stubs and identity fails. -/
theorem opt_handler_equivalent (connectOk : Bool) (race : RaceResult) :
    effectiveTrace race (mqtt_websocket_proxy_opt connectOk race)
      = effectiveTrace race (mqtt_websocket_proxy connectOk race)
    ∧ optimized_ws_to_tcp_run = ws_to_tcp_run
    ∧ optimized_tcp_to_ws_run = tcp_to_ws_run := by
  refine ⟨?_, rfl, rfl⟩
  cases connectOk <;> cases race <;> decide

/-- C7 counterexample: in the WS→TCP direction a zero-length chunk does not
terminate the relay loop — the chunk `[7]` delivered after an empty chunk is
still written, and the run equals the run without the empty chunk — so the
claim that a zero-length chunk terminates both loops fails. -/
theorem zero_length_chunk_does_not_terminate_ws_loop :
    WEffect.write [7] ∈ (ws_to_tcp_run [[], [7]] WsEnd.eos).1
    ∧ ws_to_tcp_run [[], [7]] WsEnd.eos = ws_to_tcp_run [[7]] WsEnd.eos := by
  decide

/-- C7 amended: a zero-length read terminates the TCP→WS loop in
`closedClean` (later reads are never sent); in the WS→TCP loop a zero-length
chunk is skipped without terminating the loop, and exhausting the source
stream ends the loop in `closedClean`. -/
theorem zero_length_read_clean_close (pre rest reads : List Chunk)
    (ending : TcpEnd) (pending : Nat) (h : ∀ c ∈ pre, c ≠ []) :
    tcp_to_ws_run (pre ++ [] :: rest) ending = (pre, LoopExit.closedClean)
    ∧ wsToTcpLoop pending ([] :: reads) = wsToTcpLoop pending reads
    ∧ (ws_to_tcp_run reads WsEnd.eos).2 = LoopExit.closedClean := by
  refine ⟨?_, ?_, rfl⟩
  · have ht := tcpLoop_clean_prefix pre rest h
    simp [tcp_to_ws_run, ht]
  · simp [wsToTcpLoop, wsToTcpStep]

/-- Witness for `zero_length_read_clean_close` at concrete streams. -/
theorem zero_length_read_clean_close_witness :
    tcp_to_ws_run ([[1], [2]] ++ [] :: [[3]]) TcpEnd.eof
        = ([[1], [2]], LoopExit.closedClean)
    ∧ wsToTcpLoop 3 ([] :: [[9]]) = wsToTcpLoop 3 [[9]]
    ∧ (ws_to_tcp_run [[9]] WsEnd.eos).2 = LoopExit.closedClean :=
  zero_length_read_clean_close [[1], [2]] [[3]] [[9]] TcpEnd.eof 3 (by decide)

/-- C8: when the outbound TCP connect fails, both handlers close the inbound
WebSocket with code 1011 and stop; no relay loop task is ever created. -/
theorem connect_failure_closes_ws_no_tasks (race : RaceResult) :
    mqtt_websocket_proxy false race
        = [SEvent.tcpConnect false, SEvent.wsClose 1011]
    ∧ mqtt_websocket_proxy_opt false race
        = [SEvent.tcpConnect false, SEvent.wsClose 1011]
    ∧ SEvent.createTask Dir.wsToTcp ∉ mqtt_websocket_proxy false race
    ∧ SEvent.createTask Dir.tcpToWs ∉ mqtt_websocket_proxy false race
    ∧ SEvent.createTask Dir.wsToTcp ∉ mqtt_websocket_proxy_opt false race
    ∧ SEvent.createTask Dir.tcpToWs ∉ mqtt_websocket_proxy_opt false race := by
  cases race <;> decide

/-- C9: a non-cancellation exception never escapes a relay loop: the
disconnect-class errors of each direction are swallowed silently
(WebSocketDisconnect/ConnectionResetError in WS→TCP,
RuntimeError/ConnectionResetError in TCP→WS) and every other `Exception` is
caught and reported; only `CancelledError`, which is excluded here,
propagates. -/
theorem relay_errors_contained (e : PyExc) (he : e ≠ PyExc.cancelled)
    (chunks reads : List Chunk) :
    isPropagated (ws_to_tcp_run chunks (WsEnd.raises e)).2 = false
    ∧ isPropagated (tcp_to_ws_run reads (TcpEnd.raises e)).2 = false
    ∧ handleExcWsToTcp PyExc.wsDisconnect = LoopExit.closedError false
    ∧ handleExcWsToTcp PyExc.connReset = LoopExit.closedError false
    ∧ handleExcWsToTcp PyExc.runtimeError = LoopExit.closedError true
    ∧ handleExcWsToTcp PyExc.otherExc = LoopExit.closedError true
    ∧ handleExcTcpToWs PyExc.runtimeError = LoopExit.closedError false
    ∧ handleExcTcpToWs PyExc.connReset = LoopExit.closedError false
    ∧ handleExcTcpToWs PyExc.wsDisconnect = LoopExit.closedError true
    ∧ handleExcTcpToWs PyExc.otherExc = LoopExit.closedError true := by
  refine ⟨?_, ?_, rfl, rfl, rfl, rfl, rfl, rfl, rfl, rfl⟩
  · show isPropagated (handleExcWsToTcp e) = false
    cases e <;> first | rfl | exact absurd rfl he
  · by_cases ht : (tcpLoop reads).2
    · simp [tcp_to_ws_run, ht, isPropagated]
    · have hrun : (tcp_to_ws_run reads (TcpEnd.raises e)).2 = handleExcTcpToWs e := by
        simp [tcp_to_ws_run, ht]
      rw [hrun]
      cases e <;> first | rfl | exact absurd rfl he

/-- Witness for `relay_errors_contained` at a concrete disconnect error. -/
theorem relay_errors_contained_witness :
    isPropagated (ws_to_tcp_run [[1]] (WsEnd.raises PyExc.wsDisconnect)).2 = false :=
  (relay_errors_contained PyExc.wsDisconnect (by decide) [[1]] [[2]]).1

/-- C10: along the whole WS→TCP loop the pending counter equals the number
of bytes written to the writer since the most recent drain; whenever a step
drains, the step's effects are exactly the write of the triggering chunk
followed by the drain, the counter resets to 0, the transport buffer
empties, and the drained bytes include that chunk. -/
theorem pending_tracks_unflushed_bytes (chunks : List Chunk) (pending : Nat)
    (c : Chunk) (s : WriterState)
    (hdrain : WEffect.drain ∈ (wsToTcpStep pending c).2) :
    (wsToTcpLoop 0 chunks).1
        = (runWriter ⟨[], []⟩ (wsToTcpLoop 0 chunks).2).buffered.length
    ∧ (wsToTcpStep pending c).2 = [WEffect.write c, WEffect.drain]
    ∧ (wsToTcpStep pending c).1 = 0
    ∧ (runWriter s (wsToTcpStep pending c).2).buffered = []
    ∧ (runWriter s (wsToTcpStep pending c).2).sent = s.sent ++ s.buffered ++ c := by
  have hstep : (wsToTcpStep pending c).2 = [WEffect.write c, WEffect.drain]
      ∧ (wsToTcpStep pending c).1 = 0 := by
    by_cases hc : c = []
    · rw [hc] at hdrain
      simp [wsToTcpStep] at hdrain
    · by_cases hf : c.length < 100 ∨ pending + c.length > FLUSH_THRESHOLD
      · simp [wsToTcpStep, hc, hf]
      · simp [wsToTcpStep, hc, hf] at hdrain
  refine ⟨(loop_invariant chunks 0 ⟨[], []⟩ rfl).2, hstep.1, hstep.2, ?_, ?_⟩
  · rw [hstep.1]
    simp [runWriter, applyWEffect]
  · rw [hstep.1]
    simp [runWriter, applyWEffect, List.append_assoc]

/-- Witness for `pending_tracks_unflushed_bytes` at a concrete flushing
step. -/
theorem pending_tracks_unflushed_bytes_witness :
    (wsToTcpLoop 0 [[1]]).1
        = (runWriter ⟨[], []⟩ (wsToTcpLoop 0 [[1]]).2).buffered.length
    ∧ (wsToTcpStep 0 [5]).2 = [WEffect.write [5], WEffect.drain]
    ∧ (wsToTcpStep 0 [5]).1 = 0
    ∧ (runWriter ⟨[6], [7]⟩ (wsToTcpStep 0 [5]).2).buffered = []
    ∧ (runWriter ⟨[6], [7]⟩ (wsToTcpStep 0 [5]).2).sent = [7] ++ [6] ++ [5] :=
  pending_tracks_unflushed_bytes [[1]] 0 [5] ⟨[6], [7]⟩ (by decide)
